import Mathlib

-- Verification development for the Reversal-Strategy signal correlator.
-- The definitions below are a shallow embedding of src/models.rs and
-- src/handlers.rs: each Rust struct becomes a Lean structure, each method a
-- Lean function, and the handle_signal axum handler becomes a pure function
-- from a (store, request) pair to a (store, response) pair.  Prices (f64 in
-- Rust) are modelled as Rat: the program never performs arithmetic or
-- comparison on prices, it only stores and forwards them, so the change of
-- carrier is behaviour-preserving.

/-- Embeds `SignalRequest` from `src/models.rs` (the deserialized POST body). -/
structure SignalRequest where
  signal_type : String
  pair : String
  timeframe : String
  candle_time : String
  direction : Option String
  candle_close : Option Rat
  previous_session_high : Option Rat
  previous_session_low : Option Rat
  fvg_direction : Option String
  gap_high : Option Rat
  gap_low : Option Rat
  absorption_direction : Option String
deriving Repr, DecidableEq

/-- Embeds `TradeSignal` from `src/models.rs` (the emitted composite signal). -/
structure TradeSignal where
  signal_type : String
  pair : String
  timeframe : String
  candle_time : String
  direction : String
deriving Repr, DecidableEq

/-- Embeds `ConditionDetails` from `src/models.rs`. -/
structure ConditionDetails where
  time : String
  price : Rat
  direction : String
deriving Repr, DecidableEq

/-- Embeds `FvgDetails` from `src/models.rs`. -/
structure FvgDetails where
  time : String
  price : Rat
  gap_high : Rat
  gap_low : Rat
deriving Repr, DecidableEq

/-- Embeds `PairState` from `src/models.rs`: the per-key correlator state. -/
structure PairState where
  pair : String
  timeframe : String
  last_candle_time : Option String
  sessions_sweep_met : Bool
  sessions_sweep_direction : Option String
  sessions_sweep_details : Option ConditionDetails
  fvg_met : Bool
  fvg_direction : Option String
  fvg_details : Option FvgDetails
  absorption_met : Bool
  absorption_direction : Option String
  absorption_details : Option ConditionDetails
  cvd_met : Bool
  cvd_direction : Option String
  cvd_details : Option ConditionDetails
  signals_sent_since_session : Nat
deriving Repr, DecidableEq

/-- Embeds `PairState::new`. -/
def PairState.new (pair timeframe : String) : PairState :=
  { pair := pair
    timeframe := timeframe
    last_candle_time := none
    sessions_sweep_met := false
    sessions_sweep_direction := none
    sessions_sweep_details := none
    fvg_met := false
    fvg_direction := none
    fvg_details := none
    absorption_met := false
    absorption_direction := none
    absorption_details := none
    cvd_met := false
    cvd_direction := none
    cvd_details := none
    signals_sent_since_session := 0 }

/-- Embeds `PairState::reset_conditions` (full reset on a sessions sweep). -/
def PairState.reset_conditions (s : PairState) : PairState :=
  { s with
    sessions_sweep_met := false
    sessions_sweep_direction := none
    sessions_sweep_details := none
    fvg_met := false
    fvg_direction := none
    fvg_details := none
    absorption_met := false
    absorption_direction := none
    absorption_details := none
    signals_sent_since_session := 0
    cvd_direction := none
    cvd_met := false
    cvd_details := none }

/-- Embeds `PairState::reset_after_trade` (partial reset after an emission:
only `cvd_met` and `cvd_details` are cleared; `cvd_direction` is untouched). -/
def PairState.reset_after_trade (s : PairState) : PairState :=
  { s with
    cvd_met := false
    cvd_details := none }

/-- Embeds `PairState::direction_check`: sweep and CVD directions must both be
recorded and differ. -/
def PairState.direction_check (s : PairState) : Bool :=
  match s.sessions_sweep_direction, s.cvd_direction with
  | some a, some b => a != b
  | _, _ => false

/-- Embeds `PairState::are_all_conditions_met`. -/
def PairState.are_all_conditions_met (s : PairState) : Bool :=
  s.sessions_sweep_met &&
  s.fvg_met &&
  s.absorption_met &&
  s.cvd_met &&
  decide (s.signals_sent_since_session < 3) &&
  s.direction_check

-- Timestamp parsing.  `check_fvg_time_window` uses
-- `NaiveDateTime::parse_from_str` from chrono with the two formats
-- "%Y-%m-%dT%H:%M:%S" and "%Y-%m-%d %H:%M:%S" after stripping trailing 'Z'
-- characters.  We embed a datetime as a count of seconds on the proleptic
-- Gregorian timeline (the absolute offset is irrelevant: the code only
-- compares two parsed values and takes their difference).  The parser below
-- is faithful to chrono on well-formed timestamps of the two formats:
-- digit runs for each numeric field, the announced separators, full
-- consumption of the input, and chrono's calendar validity checks.

/-- Models `str::trim_end_matches('Z')`: drops every trailing `Z`. -/
def trimZ (s : String) : String :=
  String.mk ((s.data.reverse.dropWhile (fun c => c = 'Z')).reverse)

/-- Reads a nonempty run of decimal digits from the front of a char list,
returning its value and the rest. -/
def readNat : List Char → Option (Nat × List Char) :=
  fun cs =>
    let ds := cs.takeWhile Char.isDigit
    if ds.isEmpty then none
    else some (ds.foldl (fun n c => n * 10 + (c.toNat - 48)) 0, cs.drop ds.length)

/-- Consumes one expected character. -/
def expectChar (c : Char) : List Char → Option (List Char)
  | x :: xs => if x = c then some xs else none
  | [] => none

/-- Gregorian leap-year test, as chrono uses for calendar validation. -/
def isLeapYear (y : Nat) : Bool :=
  (y % 4 = 0 && y % 100 ≠ 0) || y % 400 = 0

/-- Number of days in a month of a given year. -/
def daysInMonth (y m : Nat) : Nat :=
  if m = 1 then 31
  else if m = 2 then (if isLeapYear y then 29 else 28)
  else if m = 3 then 31
  else if m = 4 then 30
  else if m = 5 then 31
  else if m = 6 then 30
  else if m = 7 then 31
  else if m = 8 then 31
  else if m = 9 then 30
  else if m = 10 then 31
  else if m = 11 then 30
  else 31

/-- Calendar validity of a year-month-day triple. -/
def validDate (y m d : Nat) : Bool :=
  1 ≤ m && m ≤ 12 && 1 ≤ d && d ≤ daysInMonth y m

/-- Day number of a proleptic-Gregorian civil date (standard era-based civil
calendar algorithm, shifted by one 400-year era so all arithmetic stays in
`Nat`; the constant shift cancels in every comparison and difference). -/
def daysFromCivil (y m d : Nat) : Nat :=
  let y1 := y + 400
  let y2 := if m ≤ 2 then y1 - 1 else y1
  let era := y2 / 400
  let yoe := y2 % 400
  let mp := (m + 9) % 12
  let doy := (153 * mp + 2) / 5 + d - 1
  let doe := yoe * 365 + yoe / 4 - yoe / 100 + doy
  era * 146097 + doe

/-- Seconds-on-timeline encoding of a parsed datetime. -/
def toSeconds (y m d h mi s : Nat) : Nat :=
  daysFromCivil y m d * 86400 + h * 3600 + mi * 60 + s

/-- Parses "year-month-day `sep` hour:minute:second" with the given date/time
separator, requiring full consumption and calendar validity, and returns the
seconds encoding.  Models one `NaiveDateTime::parse_from_str` attempt. -/
def parseWithSep (sep : Char) (s : String) : Option Nat :=
  match readNat s.data with
  | none => none
  | some (y, r1) =>
    match expectChar '-' r1 with
    | none => none
    | some r2 =>
      match readNat r2 with
      | none => none
      | some (mo, r3) =>
        match expectChar '-' r3 with
        | none => none
        | some r4 =>
          match readNat r4 with
          | none => none
          | some (d, r5) =>
            match expectChar sep r5 with
            | none => none
            | some r6 =>
              match readNat r6 with
              | none => none
              | some (h, r7) =>
                match expectChar ':' r7 with
                | none => none
                | some r8 =>
                  match readNat r8 with
                  | none => none
                  | some (mi, r9) =>
                    match expectChar ':' r9 with
                    | none => none
                    | some r10 =>
                      match readNat r10 with
                      | none => none
                      | some (sec, r11) =>
                        if r11.isEmpty && validDate y mo d &&
                            h < 24 && mi < 60 && sec < 60 then
                          some (toSeconds y mo d h mi sec)
                        else none

/-- Embeds the `parse_time` closure of `PairState::check_fvg_time_window`:
strip trailing `Z`, try the `T`-separated format, then the space-separated
one. -/
def parse_time (s : String) : Option Nat :=
  let cleaned := trimZ s
  match parseWithSep 'T' cleaned with
  | some v => some v
  | none => parseWithSep ' ' cleaned

/-- Embeds `PairState::is_fvg_within_window` (present in `src/models.rs` but
never called by the handler; it returns `true` on every input). -/
def PairState.is_fvg_within_window (s : PairState) (_fvg_time : String) : Bool :=
  if !s.sessions_sweep_met then true else true

/-- Embeds `PairState::check_fvg_time_window`.  Note the argument is whatever
string the caller passes as `fvg_time`; the handler passes the incoming
event's `candle_time`.  `Duration::hours(1)` is 3600 seconds. -/
def PairState.check_fvg_time_window (s : PairState) (fvg_time : String) : Bool :=
  match s.sessions_sweep_details with
  | some sweep =>
    match parse_time fvg_time with
    | none => true
    | some fvg_dt =>
      match parse_time sweep.time with
      | none => true
      | some sweep_dt =>
        if sweep_dt ≤ fvg_dt then true
        else decide (sweep_dt - fvg_dt ≤ 3600)
  | none => true

-- Handler embedding (`src/handlers.rs`, `handle_signal`).  The axum handler
-- is modelled as a pure function.  A `Response` captures the three response
-- shapes the handler produces: a 400 with a text body, a 200 with a text
-- body, and a 200 carrying the JSON-encoded `TradeSignal`.

/-- HTTP response outcomes of `handle_signal`. -/
inductive Response where
  | badRequest (body : String)
  | ok (body : String)
  | okSignal (signal : TradeSignal)
deriving Repr, DecidableEq

/-- True exactly when a response is the emission of a composite trade signal. -/
def Response.isEmission : Response → Bool
  | Response.okSignal _ => true
  | _ => false

/-- True exactly when a response is a 200-class outcome (not a 400). -/
def Response.isOk : Response → Bool
  | Response.badRequest _ => false
  | _ => true

/-- Embeds the `"sessions_sweep"` arm of `handle_signal`: capture the fvg
slot, full reset, restore the fvg slot if it was met, then record the sweep
when the event carries a direction. -/
def applySweep (s : PairState) (e : SignalRequest) (c : Rat) : PairState :=
  let stored_fvg := s.fvg_details
  let stored_fvg_met := s.fvg_met
  let stored_fvg_direction := s.fvg_direction
  let s1 := s.reset_conditions
  let s2 :=
    if stored_fvg_met then
      { s1 with
        fvg_met := stored_fvg_met
        fvg_direction := stored_fvg_direction
        fvg_details := stored_fvg }
    else s1
  match e.direction with
  | some direction =>
    { s2 with
      sessions_sweep_met := true
      sessions_sweep_direction := some direction
      sessions_sweep_details :=
        some { time := e.candle_time, price := c, direction := direction } }
  | none => s2

/-- Embeds the `"fvg"` arm of `handle_signal`: requires `fvg_direction`,
`gap_high`, `gap_low`; when all present, overwrite the fvg slot. -/
def applyFvg (s : PairState) (e : SignalRequest) (c : Rat) : PairState :=
  match e.fvg_direction, e.gap_high, e.gap_low with
  | some fd, some gh, some gl =>
    { s with
      fvg_met := true
      fvg_direction := some fd
      fvg_details :=
        some { time := e.candle_time, price := c, gap_high := gh, gap_low := gl } }
  | _, _, _ => s

/-- Embeds the `"absorption"` arm of `handle_signal`: requires `direction`;
when present, overwrite the absorption slot. -/
def applyAbsorption (s : PairState) (e : SignalRequest) (c : Rat) : PairState :=
  match e.direction with
  | some direction =>
    { s with
      absorption_met := true
      absorption_direction := some direction
      absorption_details :=
        some { time := e.candle_time, price := c, direction := direction } }
  | none => s

/-- Embeds the `"cvd"` arm of `handle_signal`: only considered when
`absorption_met`; an incoming direction equal to a recorded sweep direction
triggers an early `200 "Signal processed"` return (the `some` component);
otherwise the cvd slot is overwritten. -/
def applyCvd (s : PairState) (e : SignalRequest) (c : Rat) :
    PairState × Option Response :=
  if s.absorption_met then
    match e.direction with
    | some direction =>
      if s.sessions_sweep_direction = some direction then
        (s, some (Response.ok "Signal processed"))
      else
        ({ s with
            cvd_met := true
            cvd_direction := some direction
            cvd_details :=
              some { time := e.candle_time, price := c, direction := direction } },
          none)
    | none => (s, none)
  else (s, none)

/-- Embeds the event-application portion of `handle_signal`: the update of
`last_candle_time`, then the match on `signal_type`.  The `Option Response`
component is `some r` exactly when the Rust code early-returns `r` from
inside the match (cvd ignore, unknown kind), skipping the emission check. -/
def applyEvent (s0 : PairState) (e : SignalRequest) (c : Rat) :
    PairState × Option Response :=
  let s := { s0 with last_candle_time := some e.candle_time }
  if e.signal_type = "sessions_sweep" then (applySweep s e c, none)
  else if e.signal_type = "fvg" then (applyFvg s e c, none)
  else if e.signal_type = "absorption" then (applyAbsorption s e c, none)
  else if e.signal_type = "cvd" then applyCvd s e c
  else (s, some (Response.badRequest "Unknown signal type"))

/-- Embeds the direction inversion of the trade-signal composer:
`"bullish" → "bearish"`, `"bearish" → "bullish"`, anything else `"unknown"`. -/
def invertDirection (d : String) : String :=
  if d = "bullish" then "bearish"
  else if d = "bearish" then "bullish"
  else "unknown"

/-- Embeds the emission check at the end of `handle_signal`: when all
conditions are met and the time-window check (fed the incoming event's
`candle_time`) passes, compose the `TradeSignal`, bump the counter, apply the
partial reset and return the signal. -/
def emissionCheck (s : PairState) (e : SignalRequest) : PairState × Response :=
  if s.are_all_conditions_met then
    if !s.check_fvg_time_window e.candle_time then
      (s, Response.ok "Signal processed")
    else
      let direction :=
        match s.sessions_sweep_direction with
        | some d => invertDirection d
        -- Unreachable under `are_all_conditions_met` (its `direction_check`
        -- conjunct forces `some`); the Rust code unwraps here.
        | none => "unknown"
      let ts : TradeSignal :=
        { signal_type := "trade_signal"
          pair := s.pair
          timeframe := s.timeframe
          -- `last_candle_time` was set to the event's `candle_time` at the
          -- top of the handler; the Rust code unwraps it.
          candle_time := s.last_candle_time.getD ""
          direction := direction }
      let s1 := { s with signals_sent_since_session := s.signals_sent_since_session + 1 }
      let s2 := s1.reset_after_trade
      (s2, Response.okSignal ts)
  else (s, Response.ok "Signal processed successfully")

/-- Embeds the per-key body of `handle_signal` after `candle_close`
validation: apply the event, then (unless an early return occurred) run the
emission check. -/
def processSignal (s0 : PairState) (e : SignalRequest) (c : Rat) :
    PairState × Response :=
  match applyEvent s0 e c with
  | (s1, some r) => (s1, r)
  | (s1, none) => emissionCheck s1 e

-- Store level (`handle_signal` plus the `AppState` map of `src/main.rs`).
-- The `HashMap<String, PairState>` behind the mutex is modelled as an
-- association list; `entry(key).or_insert_with(..)` followed by in-place
-- mutation becomes lookup-with-default followed by insert-or-replace.

/-- The correlator store: key to `PairState`. -/
def Store := List (String × PairState)

/-- Store lookup (first match wins, as in a map). -/
def Store.find : Store → String → Option PairState
  | [], _ => none
  | (k, v) :: rest, key => if k = key then some v else Store.find rest key

/-- Store insert-or-replace at a key. -/
def Store.insert : Store → String → PairState → Store
  | [], key, v => [(key, v)]
  | (k, w) :: rest, key, v =>
    if k = key then (key, v) :: rest else (k, w) :: Store.insert rest key v

/-- Embeds the whole of `handle_signal`: reject when `candle_close` is
absent (before touching the store), otherwise process the signal for the
key `pair ++ "_" ++ timeframe` and write the updated state back. -/
def handleSignal (store : Store) (e : SignalRequest) : Store × Response :=
  match e.candle_close with
  | none => (store, Response.badRequest "candle_close is required")
  | some c =>
    let key := e.pair ++ "_" ++ e.timeframe
    let s0 := (Store.find store key).getD (PairState.new e.pair e.timeframe)
    let sr := processSignal s0 e c
    (Store.insert store key sr.1, sr.2)

/-- Runs a sequence of requests against a store, keeping only the store. -/
def runStore (events : List SignalRequest) : Store :=
  events.foldl (fun st e => (handleSignal st e).1) []

/-- One-key view of one request: what happens to a single correlator's state
and the response when a request routed to its key arrives (a request without
`candle_close` is rejected before the store is touched, so the state is
unchanged). -/
def stepStateResp (s : PairState) (e : SignalRequest) : PairState × Response :=
  match e.candle_close with
  | none => (s, Response.badRequest "candle_close is required")
  | some c => processSignal s e c

/-- State component of `stepStateResp`. -/
def stepState (s : PairState) (e : SignalRequest) : PairState :=
  (stepStateResp s e).1

/-- Runs a list of requests against one correlator's state. -/
def runState (s : PairState) (events : List SignalRequest) : PairState :=
  events.foldl stepState s

/-- Collects the responses of a list of requests run against one state. -/
def runResponses (s : PairState) : List SignalRequest → List Response
  | [] => []
  | e :: es => (stepStateResp s e).2 :: runResponses (stepState s e) es


-- Concrete request fixtures used by the closed theorems and witnesses below.

/-- Request fixture: kind, candle time and direction, with `candle_close = 1`
and no kind-specific extras. -/
def mkEvt (ty t : String) (dir : Option String) : SignalRequest :=
  { signal_type := ty
    pair := "EURUSD"
    timeframe := "1h"
    candle_time := t
    direction := dir
    candle_close := some 1
    previous_session_high := none
    previous_session_low := none
    fvg_direction := none
    gap_high := none
    gap_low := none
    absorption_direction := none }

/-- Fvg request fixture carrying direction and gap bounds. -/
def mkFvgEvt (t : String) (fd : Option String) (gh gl : Option Rat) :
    SignalRequest :=
  { mkEvt "fvg" t none with fvg_direction := fd, gap_high := gh, gap_low := gl }



-- Helper lemmas characterizing the handler's branches.

theorem applyEvent_of_sweep (s : PairState) (e : SignalRequest) (c : Rat)
    (h : e.signal_type = "sessions_sweep") :
    applyEvent s e c =
      (applySweep { s with last_candle_time := some e.candle_time } e c, none) := by
  simp [applyEvent, h]

theorem applyEvent_of_fvg (s : PairState) (e : SignalRequest) (c : Rat)
    (h : e.signal_type = "fvg") :
    applyEvent s e c =
      (applyFvg { s with last_candle_time := some e.candle_time } e c, none) := by
  simp [applyEvent, h]

theorem applyEvent_of_absorption (s : PairState) (e : SignalRequest) (c : Rat)
    (h : e.signal_type = "absorption") :
    applyEvent s e c =
      (applyAbsorption { s with last_candle_time := some e.candle_time } e c, none) := by
  simp [applyEvent, h]

theorem applyEvent_of_cvd (s : PairState) (e : SignalRequest) (c : Rat)
    (h : e.signal_type = "cvd") :
    applyEvent s e c =
      applyCvd { s with last_candle_time := some e.candle_time } e c := by
  simp [applyEvent, h]

theorem applyEvent_of_unknown (s : PairState) (e : SignalRequest) (c : Rat)
    (h1 : e.signal_type ≠ "sessions_sweep") (h2 : e.signal_type ≠ "fvg")
    (h3 : e.signal_type ≠ "absorption") (h4 : e.signal_type ≠ "cvd") :
    applyEvent s e c =
      ({ s with last_candle_time := some e.candle_time },
       some (Response.badRequest "Unknown signal type")) := by
  simp [applyEvent, h1, h2, h3, h4]

theorem applySweep_spec (s : PairState) (e : SignalRequest) (c : Rat) :
    (applySweep s e c).absorption_met = false
    ∧ (applySweep s e c).absorption_direction = none
    ∧ (applySweep s e c).absorption_details = none
    ∧ (applySweep s e c).cvd_met = false
    ∧ (applySweep s e c).cvd_direction = none
    ∧ (applySweep s e c).cvd_details = none
    ∧ (applySweep s e c).signals_sent_since_session = 0
    ∧ (s.fvg_met = true →
        (applySweep s e c).fvg_met = true
        ∧ (applySweep s e c).fvg_direction = s.fvg_direction
        ∧ (applySweep s e c).fvg_details = s.fvg_details)
    ∧ (e.direction = none →
        (applySweep s e c).sessions_sweep_met = false
        ∧ (applySweep s e c).sessions_sweep_direction = none
        ∧ (applySweep s e c).sessions_sweep_details = none) := by
  unfold applySweep PairState.reset_conditions
  cases hd : e.direction <;> cases hm : s.fvg_met <;> simp_all

theorem are_all_conditions_met_spec (s : PairState)
    (h : s.are_all_conditions_met = true) :
    s.sessions_sweep_met = true ∧ s.fvg_met = true ∧ s.absorption_met = true
    ∧ s.cvd_met = true ∧ s.signals_sent_since_session < 3
    ∧ s.direction_check = true := by
  simp only [PairState.are_all_conditions_met, Bool.and_eq_true,
    decide_eq_true_eq] at h
  exact ⟨h.1.1.1.1.1, h.1.1.1.1.2, h.1.1.1.2, h.1.1.2, h.1.2, h.2⟩

theorem are_all_false_of_cvd (s : PairState) (h : s.cvd_met = false) :
    s.are_all_conditions_met = false := by
  simp [PairState.are_all_conditions_met, h]

theorem are_all_false_of_absorption (s : PairState) (h : s.absorption_met = false) :
    s.are_all_conditions_met = false := by
  simp [PairState.are_all_conditions_met, h]

theorem direction_check_isSome (s : PairState) (h : s.direction_check = true) :
    s.sessions_sweep_direction.isSome = true := by
  unfold PairState.direction_check at h
  cases hs : s.sessions_sweep_direction <;> cases hc : s.cvd_direction <;>
    simp_all

theorem emissionCheck_isEmission (s : PairState) (e : SignalRequest) :
    (emissionCheck s e).2.isEmission = true ↔
      (s.are_all_conditions_met = true ∧
       s.check_fvg_time_window e.candle_time = true) := by
  unfold emissionCheck
  split_ifs with h1 h2 <;> simp_all [Response.isEmission]

theorem emissionCheck_emit (s : PairState) (e : SignalRequest) (ts : TradeSignal)
    (h : (emissionCheck s e).2 = Response.okSignal ts) :
    s.are_all_conditions_met = true
    ∧ s.check_fvg_time_window e.candle_time = true
    ∧ (emissionCheck s e).1 =
        PairState.reset_after_trade
          { s with signals_sent_since_session := s.signals_sent_since_session + 1 }
    ∧ ts.direction =
        (match s.sessions_sweep_direction with
         | some d => invertDirection d
         | none => "unknown") := by
  unfold emissionCheck at h ⊢
  split_ifs at h ⊢ with h1 h2
  · have h' : ({ signal_type := "trade_signal",
                 pair := s.pair,
                 timeframe := s.timeframe,
                 candle_time := s.last_candle_time.getD "",
                 direction := (match s.sessions_sweep_direction with
                   | some d => invertDirection d
                   | none => "unknown") } : TradeSignal) = ts := by
      simpa using h
    subst h'
    exact ⟨h1, by simpa using h2, rfl, rfl⟩

theorem emissionCheck_no_emit (s : PairState) (e : SignalRequest)
    (h : ¬(s.are_all_conditions_met = true ∧
           s.check_fvg_time_window e.candle_time = true)) :
    (emissionCheck s e).1 = s ∧ (emissionCheck s e).2.isEmission = false := by
  unfold emissionCheck
  split_ifs with h1 h2 <;> simp_all [Response.isEmission]

theorem applyCvd_snd (s : PairState) (e : SignalRequest) (c : Rat) :
    (applyCvd s e c).2 = none ∨
      (applyCvd s e c).2 = some (Response.ok "Signal processed") := by
  unfold applyCvd
  split_ifs with h1
  · cases e.direction with
    | none => simp
    | some d =>
      by_cases h2 : s.sessions_sweep_direction = some d <;> simp [h2]
  · simp

theorem applyEvent_early_not_emission (s : PairState)
    (e : SignalRequest) (c : Rat) (r : Response)
    (h : (applyEvent s e c).2 = some r) : r.isEmission = false := by
  unfold applyEvent at h
  -- split_ifs closes the sweep, fvg and absorption branches itself (their
  -- early-return component is `none`); the cvd and unknown branches remain.
  split_ifs at h with h1 h2 h3 h4
  · rcases applyCvd_snd { s with last_candle_time := some e.candle_time } e c
      with h' | h'
    · rw [h'] at h
      cases h
    · rw [h'] at h
      have h'' : Response.ok "Signal processed" = r := by simpa using h
      subst h''
      rfl
  · have h'' : Response.badRequest "Unknown signal type" = r := by simpa using h
    subst h''
    rfl

-- Counter lemmas: how each code path treats `signals_sent_since_session`.

theorem applySweep_counter (s : PairState) (e : SignalRequest) (c : Rat) :
    (applySweep s e c).signals_sent_since_session = 0 :=
  (applySweep_spec s e c).2.2.2.2.2.2.1

theorem applySweep_cvd_met (s : PairState) (e : SignalRequest) (c : Rat) :
    (applySweep s e c).cvd_met = false :=
  (applySweep_spec s e c).2.2.2.1

theorem applyEvent_counter (s : PairState) (e : SignalRequest) (c : Rat)
    (hty : e.signal_type ≠ "sessions_sweep") :
    (applyEvent s e c).1.signals_sent_since_session =
      s.signals_sent_since_session := by
  unfold applyEvent
  split_ifs with h1 h2 h3 h4
  · exact absurd h1 hty
  · unfold applyFvg
    cases e.fvg_direction <;> cases e.gap_high <;> cases e.gap_low <;> rfl
  · unfold applyAbsorption
    cases e.direction <;> rfl
  · dsimp only [applyCvd]
    split_ifs with h5
    · cases e.direction with
      | none => rfl
      | some d =>
        by_cases h6 : s.sessions_sweep_direction = some d <;> simp [h6]
    · rfl
  · rfl

theorem are_all_false_of_counter (s : PairState)
    (h : s.signals_sent_since_session = 3) :
    s.are_all_conditions_met = false := by
  simp [PairState.are_all_conditions_met, h]

theorem emissionCheck_counter_le (s : PairState) (e : SignalRequest)
    (h : s.signals_sent_since_session ≤ 3) :
    (emissionCheck s e).1.signals_sent_since_session ≤ 3 := by
  unfold emissionCheck
  split_ifs with h1 h2 <;>
    first
      | exact h
      | (have hlt := (are_all_conditions_met_spec s h1).2.2.2.2.1
         dsimp only [PairState.reset_after_trade]
         omega)

theorem processSignal_counter_le (s : PairState) (e : SignalRequest) (c : Rat)
    (h : s.signals_sent_since_session ≤ 3) :
    (processSignal s e c).1.signals_sent_since_session ≤ 3 := by
  unfold processSignal
  by_cases hty : e.signal_type = "sessions_sweep"
  · rw [applyEvent_of_sweep s e c hty]
    exact emissionCheck_counter_le _ e (by rw [applySweep_counter]; omega)
  · rcases happ : applyEvent s e c with ⟨s1, r⟩
    have hc1 : s1.signals_sent_since_session = s.signals_sent_since_session := by
      have hae := applyEvent_counter s e c hty
      rw [happ] at hae
      exact hae
    cases r with
    | some r' => simpa [hc1] using h
    | none => exact emissionCheck_counter_le s1 e (by rw [hc1]; exact h)

-- Store-level machinery for the per-key invariants.

theorem Store.find_insert (st : Store) (k : String) (v : PairState)
    (k' : String) :
    Store.find (Store.insert st k v) k' =
      if k' = k then some v else Store.find st k' := by
  induction st with
  | nil =>
    by_cases h1 : k' = k
    · subst h1
      simp [Store.insert, Store.find]
    · have h2 : ¬k = k' := fun hh => h1 hh.symm
      simp [Store.insert, Store.find, h1, h2]
  | cons hd tl ih =>
    rcases hd with ⟨k0, v0⟩
    by_cases h0 : k0 = k
    · subst h0
      by_cases h1 : k' = k0
      · subst h1
        simp [Store.insert, Store.find]
      · have h2 : ¬k0 = k' := fun hh => h1 hh.symm
        simp [Store.insert, Store.find, h1, h2]
    · by_cases h1 : k0 = k'
      · subst h1
        have h2 : ¬k0 = k := h0
        simp [Store.insert, Store.find, h0]
      · have h2 : ¬k' = k0 := fun hh => h1 hh.symm
        simp [Store.insert, Store.find, h0, h1, h2, ih]

/-- Per-key counter invariant of a store: every registered correlator has
sent at most 3 signals since its last session reset. -/
def StoreCounterInv (st : Store) : Prop :=
  ∀ k s, Store.find st k = some s → s.signals_sent_since_session ≤ 3

theorem handleSignal_counterInv (st : Store) (e : SignalRequest)
    (h : StoreCounterInv st) : StoreCounterInv (handleSignal st e).1 := by
  unfold handleSignal
  cases hc : e.candle_close with
  | none => exact h
  | some c =>
    intro k s hk
    simp only at hk
    rw [Store.find_insert] at hk
    by_cases hkey : k = e.pair ++ "_" ++ e.timeframe
    · rw [if_pos hkey] at hk
      have hs0 :
          ((Store.find st (e.pair ++ "_" ++ e.timeframe)).getD
            (PairState.new e.pair e.timeframe)).signals_sent_since_session
            ≤ 3 := by
        cases hfind : Store.find st (e.pair ++ "_" ++ e.timeframe) with
        | none => simp [PairState.new]
        | some s0 => simpa using h _ s0 hfind
      have := processSignal_counter_le _ e c hs0
      rw [Option.some.injEq] at hk
      rw [← hk]
      exact this
    · rw [if_neg hkey] at hk
      exact h k s hk

theorem foldl_counterInv (events : List SignalRequest) (st : Store)
    (h : StoreCounterInv st) :
    StoreCounterInv
      (events.foldl (fun acc e => (handleSignal acc e).1) st) := by
  induction events generalizing st with
  | nil => exact h
  | cons e es ih => exact ih _ (handleSignal_counterInv st e h)

theorem runStore_counterInv (events : List SignalRequest) :
    StoreCounterInv (runStore events) := by
  unfold runStore
  exact foldl_counterInv events [] (fun k s hk => by cases hk)

theorem emissionCheck_isOk (s : PairState) (e : SignalRequest) :
    (emissionCheck s e).2.isOk = true := by
  unfold emissionCheck
  split_ifs <;> rfl

theorem applyFvg_degenerate (s : PairState) (e : SignalRequest) (c : Rat)
    (h : e.fvg_direction = none ∨ e.gap_high = none ∨ e.gap_low = none) :
    applyFvg s e c = s := by
  unfold applyFvg
  cases h1 : e.fvg_direction <;> cases h2 : e.gap_high <;>
    cases h3 : e.gap_low <;> simp_all

theorem applyAbsorption_degenerate (s : PairState) (e : SignalRequest) (c : Rat)
    (h : e.direction = none) : applyAbsorption s e c = s := by
  unfold applyAbsorption
  rw [h]

theorem applyCvd_degenerate (s : PairState) (e : SignalRequest) (c : Rat)
    (h : e.direction = none) : applyCvd s e c = (s, none) := by
  unfold applyCvd
  rw [h]
  split_ifs <;> rfl

theorem processSignal_emit (s : PairState) (e : SignalRequest) (c : Rat)
    (ts : TradeSignal) (h : (processSignal s e c).2 = Response.okSignal ts) :
    (applyEvent s e c).2 = none
    ∧ (applyEvent s e c).1.are_all_conditions_met = true
    ∧ (applyEvent s e c).1.check_fvg_time_window e.candle_time = true
    ∧ (processSignal s e c).1 =
        PairState.reset_after_trade
          { (applyEvent s e c).1 with
            signals_sent_since_session :=
              (applyEvent s e c).1.signals_sent_since_session + 1 }
    ∧ ts.direction =
        (match (applyEvent s e c).1.sessions_sweep_direction with
         | some d => invertDirection d
         | none => "unknown") := by
  unfold processSignal at h ⊢
  revert h
  rcases happ : applyEvent s e c with ⟨s1, r⟩
  intro h
  cases r with
  | some r' =>
    exfalso
    dsimp only at h
    have hne := applyEvent_early_not_emission s e c r' (by rw [happ])
    rw [h] at hne
    cases hne
  | none =>
    dsimp only at h ⊢
    have he := emissionCheck_emit s1 e ts h
    exact ⟨rfl, he.1, he.2.1, he.2.2.1, he.2.2.2⟩

theorem processSignal_state_no_emit (s : PairState) (e : SignalRequest) (c : Rat)
    (h : (processSignal s e c).2.isEmission = false) :
    (processSignal s e c).1 = (applyEvent s e c).1 := by
  unfold processSignal at h ⊢
  revert h
  rcases happ : applyEvent s e c with ⟨s1, r⟩
  intro h
  cases r with
  | some r' => rfl
  | none =>
    dsimp only at h ⊢
    have hcond : ¬(s1.are_all_conditions_met = true ∧
        s1.check_fvg_time_window e.candle_time = true) := by
      intro hcond
      rw [(emissionCheck_isEmission s1 e).2 hcond] at h
      cases h
    exact (emissionCheck_no_emit s1 e hcond).1

-- Concrete fixtures for witnesses and counterexamples.

/-- An armed correlator: sweep (bullish, 10:00), fvg (09:30) and absorption
(10:05) met, divergence not yet met, no emission so far. -/
def armedState : PairState :=
  { pair := "EURUSD"
    timeframe := "1h"
    last_candle_time := some "2023-07-10T10:05:00Z"
    sessions_sweep_met := true
    sessions_sweep_direction := some "bullish"
    sessions_sweep_details :=
      some { time := "2023-07-10T10:00:00Z", price := 1, direction := "bullish" }
    fvg_met := true
    fvg_direction := some "bullish"
    fvg_details :=
      some { time := "2023-07-10T09:30:00Z", price := 1,
             gap_high := 105, gap_low := 100 }
    absorption_met := true
    absorption_direction := some "bullish"
    absorption_details :=
      some { time := "2023-07-10T10:05:00Z", price := 1, direction := "bullish" }
    cvd_met := false
    cvd_direction := none
    cvd_details := none
    signals_sent_since_session := 0 }

/-- A divergence request running counter to the armed sweep. -/
def cvdEvt : SignalRequest := mkEvt "cvd" "2023-07-10T10:06:00Z" (some "bearish")

/-- A divergence request whose direction equals the armed sweep's. -/
def cvdSameDirEvt : SignalRequest :=
  mkEvt "cvd" "2023-07-10T10:06:00Z" (some "bullish")

/-- A sweep request carrying no direction. -/
def sweepNoDirEvt : SignalRequest :=
  mkEvt "sessions_sweep" "2023-07-10T12:00:00Z" none

/-- Scenario-D style trace: one sweep, then fvg, absorption, and three
counter-sweep divergences (the divergence slot re-arms after each emission). -/
def scenarioCapEvents : List SignalRequest :=
  [mkEvt "sessions_sweep" "2023-07-10T10:00:00Z" (some "bullish"),
   mkFvgEvt "2023-07-10T09:30:00Z" (some "bullish") (some 105) (some 100),
   mkEvt "absorption" "2023-07-10T10:05:00Z" (some "bullish"),
   mkEvt "cvd" "2023-07-10T10:06:00Z" (some "bearish"),
   mkEvt "cvd" "2023-07-10T10:08:00Z" (some "bearish"),
   mkEvt "cvd" "2023-07-10T10:09:00Z" (some "bearish")]

/-- Scenario-B style trace: the fair-value-gap is recorded at 08:00, two
hours before the sweep at 10:00; the divergence trigger arrives at 10:07. -/
def staleFvgEvents : List SignalRequest :=
  [mkEvt "sessions_sweep" "2023-07-10T10:00:00Z" (some "bullish"),
   mkFvgEvt "2023-07-10T08:00:00Z" (some "bullish") (some 105) (some 100),
   mkEvt "absorption" "2023-07-10T10:05:00Z" (some "bullish"),
   mkEvt "cvd" "2023-07-10T10:07:00Z" (some "bearish")]

/-- Trace arming the correlator with a window-rejected divergence trigger
(08:00 against a 10:00 sweep), then a degenerate fvg request (no
`fvg_direction`, no gap bounds) at 10:30. -/
def degenerateEvents : List SignalRequest :=
  [mkEvt "sessions_sweep" "2023-07-10T10:00:00Z" (some "bullish"),
   mkFvgEvt "2023-07-10T09:30:00Z" (some "bullish") (some 105) (some 100),
   mkEvt "absorption" "2023-07-10T10:05:00Z" (some "bullish"),
   mkEvt "cvd" "2023-07-10T08:00:00Z" (some "bearish"),
   mkFvgEvt "2023-07-10T10:30:00Z" none none none]

/-- A store holding one correlator for key "EURUSD_1h". -/
def preStore : Store :=
  runStore [mkEvt "absorption" "2023-07-10T10:05:00Z" (some "bullish")]

/-- A request of unrecognized kind with `candle_close` present. -/
def unknownEvt : SignalRequest :=
  mkEvt "breaker_block" "2023-07-10T11:00:00Z" none

-- Claims.

/-- C5: applying a `sessions_sweep` event (with its required `candle_close`)
always clears the absorption slot, the divergence slot and the emission
counter; a previously met fair-value-gap keeps its met flag, direction and
full detail across the reset; and if the event carries no direction the
reset still happens but the sweep slot stays unset. -/
theorem c5_sweep_reset (s : PairState) (e : SignalRequest) (c : Rat)
    (hty : e.signal_type = "sessions_sweep") (hc : e.candle_close = some c) :
    (stepStateResp s e).1.absorption_met = false
    ∧ (stepStateResp s e).1.absorption_direction = none
    ∧ (stepStateResp s e).1.absorption_details = none
    ∧ (stepStateResp s e).1.cvd_met = false
    ∧ (stepStateResp s e).1.cvd_direction = none
    ∧ (stepStateResp s e).1.cvd_details = none
    ∧ (stepStateResp s e).1.signals_sent_since_session = 0
    ∧ (s.fvg_met = true →
        (stepStateResp s e).1.fvg_met = true
        ∧ (stepStateResp s e).1.fvg_direction = s.fvg_direction
        ∧ (stepStateResp s e).1.fvg_details = s.fvg_details)
    ∧ (e.direction = none →
        (stepStateResp s e).1.sessions_sweep_met = false
        ∧ (stepStateResp s e).1.sessions_sweep_direction = none
        ∧ (stepStateResp s e).1.sessions_sweep_details = none) := by
  have hstep : stepStateResp s e = processSignal s e c := by
    unfold stepStateResp
    rw [hc]
  rw [hstep]
  unfold processSignal
  rw [applyEvent_of_sweep s e c hty]
  dsimp only
  have hfalse := are_all_false_of_cvd _
    (applySweep_cvd_met { s with last_candle_time := some e.candle_time } e c)
  have hne := emissionCheck_no_emit
    (applySweep { s with last_candle_time := some e.candle_time } e c) e
    (by simp [hfalse])
  rw [hne.1]
  have hs := applySweep_spec { s with last_candle_time := some e.candle_time } e c
  exact ⟨hs.1, hs.2.1, hs.2.2.1, hs.2.2.2.1, hs.2.2.2.2.1, hs.2.2.2.2.2.1,
    hs.2.2.2.2.2.2.1,
    fun hm => hs.2.2.2.2.2.2.2.1 hm,
    fun hd => hs.2.2.2.2.2.2.2.2 hd⟩

/-- C5 witness: the sweep-reset theorem applied to the armed fixture and a
direction-less sweep request. -/
theorem c5_witness :
    (stepStateResp armedState sweepNoDirEvt).1.absorption_met = false
    ∧ (stepStateResp armedState sweepNoDirEvt).1.signals_sent_since_session = 0
    ∧ (stepStateResp armedState sweepNoDirEvt).1.fvg_details = armedState.fvg_details
    ∧ (stepStateResp armedState sweepNoDirEvt).1.sessions_sweep_met = false := by
  have h := c5_sweep_reset armedState sweepNoDirEvt 1 rfl rfl
  exact ⟨h.1, h.2.2.2.2.2.2.1, (h.2.2.2.2.2.2.2.1 rfl).2.2, (h.2.2.2.2.2.2.2.2 rfl).1⟩

/-- C7: in any correlator state whose sweep direction is recorded, a cvd
request with `candle_close` present and the same direction leaves the
divergence slot (met flag, direction, details) unchanged and is answered
with a 200-class outcome. -/
theorem c7_cvd_same_direction_ignored (s : PairState) (e : SignalRequest)
    (c : Rat) (d : String)
    (hsw : s.sessions_sweep_direction = some d)
    (hty : e.signal_type = "cvd") (hdir : e.direction = some d)
    (hc : e.candle_close = some c) :
    (stepStateResp s e).1.cvd_met = s.cvd_met
    ∧ (stepStateResp s e).1.cvd_direction = s.cvd_direction
    ∧ (stepStateResp s e).1.cvd_details = s.cvd_details
    ∧ (stepStateResp s e).2.isOk = true := by
  have hstep : stepStateResp s e = processSignal s e c := by
    unfold stepStateResp
    rw [hc]
  rw [hstep]
  unfold processSignal
  rw [applyEvent_of_cvd s e c hty]
  dsimp only [applyCvd]
  rw [hdir]
  by_cases habs : s.absorption_met = true
  · rw [if_pos habs]
    dsimp only
    rw [if_pos hsw]
    exact ⟨rfl, rfl, rfl, rfl⟩
  · have habs' : s.absorption_met = false := by simpa using habs
    rw [if_neg habs]
    dsimp only
    have hfalse : ({ s with last_candle_time := some e.candle_time }
        : PairState).are_all_conditions_met = false :=
      are_all_false_of_absorption _ habs'
    have hne := emissionCheck_no_emit
      { s with last_candle_time := some e.candle_time } e (by simp [hfalse])
    rw [hne.1]
    exact ⟨rfl, rfl, rfl, emissionCheck_isOk
      { s with last_candle_time := some e.candle_time } e⟩

/-- C7 witness: the same-direction divergence request against the armed
fixture changes nothing in the divergence slot and yields a 200. -/
theorem c7_witness :
    (stepStateResp armedState cvdSameDirEvt).1.cvd_met = armedState.cvd_met
    ∧ (stepStateResp armedState cvdSameDirEvt).1.cvd_direction
        = armedState.cvd_direction
    ∧ (stepStateResp armedState cvdSameDirEvt).1.cvd_details
        = armedState.cvd_details
    ∧ (stepStateResp armedState cvdSameDirEvt).2.isOk = true :=
  c7_cvd_same_direction_ignored armedState cvdSameDirEvt 1 "bullish"
    rfl rfl rfl rfl

/-- C8: a cvd request arriving while the absorption slot is not met is
ignored regardless of direction: the divergence slot is unchanged and no
emission results from that event. -/
theorem c8_cvd_needs_absorption (s : PairState) (e : SignalRequest)
    (hty : e.signal_type = "cvd") (habs : s.absorption_met = false) :
    (stepStateResp s e).1.cvd_met = s.cvd_met
    ∧ (stepStateResp s e).1.cvd_direction = s.cvd_direction
    ∧ (stepStateResp s e).1.cvd_details = s.cvd_details
    ∧ (stepStateResp s e).2.isEmission = false := by
  unfold stepStateResp
  cases hc : e.candle_close with
  | none => exact ⟨rfl, rfl, rfl, rfl⟩
  | some c =>
    dsimp only
    unfold processSignal
    rw [applyEvent_of_cvd s e c hty]
    dsimp only [applyCvd]
    rw [if_neg (show ¬(s.absorption_met = true) by simp [habs])]
    dsimp only
    have hfalse : ({ s with last_candle_time := some e.candle_time }
        : PairState).are_all_conditions_met = false :=
      are_all_false_of_absorption _ habs
    have hne := emissionCheck_no_emit
      { s with last_candle_time := some e.candle_time } e (by simp [hfalse])
    rw [hne.1]
    exact ⟨rfl, rfl, rfl, hne.2⟩

/-- C8 witness: a fresh correlator (absorption unmet) ignores a divergence
request. -/
theorem c8_witness :
    (stepStateResp (PairState.new "EURUSD" "1h") cvdEvt).1.cvd_met
        = (PairState.new "EURUSD" "1h").cvd_met
    ∧ (stepStateResp (PairState.new "EURUSD" "1h") cvdEvt).1.cvd_direction
        = (PairState.new "EURUSD" "1h").cvd_direction
    ∧ (stepStateResp (PairState.new "EURUSD" "1h") cvdEvt).1.cvd_details
        = (PairState.new "EURUSD" "1h").cvd_details
    ∧ (stepStateResp (PairState.new "EURUSD" "1h") cvdEvt).2.isEmission
        = false :=
  c8_cvd_needs_absorption (PairState.new "EURUSD" "1h") cvdEvt rfl rfl

/-- C3: over any sequence of requests applied to the empty store, every
registered correlator's emission counter stays at or below 3; a request of
any non-sweep kind arriving at a correlator whose counter is 3 produces no
emission and leaves the counter at 3; and a sweep request (with its required
`candle_close`) resets the counter to 0 without emitting. -/
theorem c3_emission_cap :
    (∀ (events : List SignalRequest) (key : String) (s : PairState),
        Store.find (runStore events) key = some s →
        s.signals_sent_since_session ≤ 3)
    ∧ (∀ (s : PairState) (e : SignalRequest),
        s.signals_sent_since_session = 3 →
        e.signal_type ≠ "sessions_sweep" →
        (stepStateResp s e).2.isEmission = false ∧
        (stepStateResp s e).1.signals_sent_since_session = 3)
    ∧ (∀ (s : PairState) (e : SignalRequest) (c : Rat),
        e.signal_type = "sessions_sweep" → e.candle_close = some c →
        (stepStateResp s e).2.isEmission = false ∧
        (stepStateResp s e).1.signals_sent_since_session = 0) := by
  refine ⟨fun events key s h => runStore_counterInv events key s h, ?_, ?_⟩
  · intro s e h3 hty
    unfold stepStateResp
    cases hc : e.candle_close with
    | none => exact ⟨rfl, h3⟩
    | some c =>
      dsimp only
      unfold processSignal
      revert h3
      rcases happ : applyEvent s e c with ⟨s1, r⟩
      intro h3
      have hc1 : s1.signals_sent_since_session = 3 := by
        have hae := applyEvent_counter s e c hty
        rw [happ] at hae
        rw [hae]
        exact h3
      cases r with
      | some r' =>
        refine ⟨applyEvent_early_not_emission s e c r' (by rw [happ]), hc1⟩
      | none =>
        dsimp only
        have hfalse := are_all_false_of_counter s1 hc1
        have hne := emissionCheck_no_emit s1 e (by simp [hfalse])
        exact ⟨hne.2, by rw [hne.1]; exact hc1⟩
  · intro s e c hty hc
    unfold stepStateResp
    rw [hc]
    dsimp only
    unfold processSignal
    rw [applyEvent_of_sweep s e c hty]
    dsimp only
    have hfalse := are_all_false_of_cvd _
      (applySweep_cvd_met { s with last_candle_time := some e.candle_time } e c)
    have hne := emissionCheck_no_emit
      (applySweep { s with last_candle_time := some e.candle_time } e c) e
      (by simp [hfalse])
    exact ⟨hne.2, by rw [hne.1]; exact applySweep_counter _ e c⟩

/-- A correlator at the emission cap. -/
def cappedState : PairState :=
  { armedState with
    cvd_met := true
    cvd_direction := some "bearish"
    signals_sent_since_session := 3 }

/-- C3 witness: a counter-sweep divergence request at a fully-armed
correlator whose counter is 3 is not emitted and leaves the counter at 3. -/
theorem c3_witness :
    (stepStateResp cappedState cvdEvt).2.isEmission = false ∧
    (stepStateResp cappedState cvdEvt).1.signals_sent_since_session = 3 :=
  c3_emission_cap.2.1 cappedState cvdEvt (by decide) (by decide)

/-- C4: whenever processing a request emits a composite, the resulting state
has the divergence slot's met flag cleared while every sweep, fair-value-gap
and absorption field is exactly as in the state the emission was evaluated
on; and the concrete scenario-D trace shows one sweep episode yielding three
emissions as divergence re-arms twice after the first. -/
theorem c4_partial_reset_after_emission :
    (∀ (s : PairState) (e : SignalRequest) (c : Rat) (ts : TradeSignal),
        e.candle_close = some c →
        (stepStateResp s e).2 = Response.okSignal ts →
        (stepStateResp s e).1.cvd_met = false
        ∧ (stepStateResp s e).1.sessions_sweep_met
            = (applyEvent s e c).1.sessions_sweep_met
        ∧ (stepStateResp s e).1.sessions_sweep_direction
            = (applyEvent s e c).1.sessions_sweep_direction
        ∧ (stepStateResp s e).1.sessions_sweep_details
            = (applyEvent s e c).1.sessions_sweep_details
        ∧ (stepStateResp s e).1.fvg_met = (applyEvent s e c).1.fvg_met
        ∧ (stepStateResp s e).1.fvg_direction
            = (applyEvent s e c).1.fvg_direction
        ∧ (stepStateResp s e).1.fvg_details = (applyEvent s e c).1.fvg_details
        ∧ (stepStateResp s e).1.absorption_met
            = (applyEvent s e c).1.absorption_met
        ∧ (stepStateResp s e).1.absorption_direction
            = (applyEvent s e c).1.absorption_direction
        ∧ (stepStateResp s e).1.absorption_details
            = (applyEvent s e c).1.absorption_details)
    ∧ ((runResponses (PairState.new "EURUSD" "1h") scenarioCapEvents).map
          Response.isEmission
        = [false, false, false, true, true, true]) := by
  constructor
  · intro s e c ts hc hem
    have hstep : stepStateResp s e = processSignal s e c := by
      unfold stepStateResp
      rw [hc]
    rw [hstep] at hem ⊢
    have hp := processSignal_emit s e c ts hem
    rw [hp.2.2.2.1]
    dsimp only [PairState.reset_after_trade]
    exact ⟨rfl, rfl, rfl, rfl, rfl, rfl, rfl, rfl, rfl, rfl⟩
  · decide

/-- The trade signal emitted for the armed fixture's counter-sweep
divergence. -/
def tsFix : TradeSignal :=
  { signal_type := "trade_signal", pair := "EURUSD", timeframe := "1h",
    candle_time := "2023-07-10T10:06:00Z", direction := "bearish" }

/-- C4 witness: the partial-reset theorem applied at the armed fixture's
emission. -/
theorem c4_witness :
    (stepStateResp armedState cvdEvt).1.cvd_met = false
    ∧ (stepStateResp armedState cvdEvt).1.fvg_details
        = (applyEvent armedState cvdEvt 1).1.fvg_details
    ∧ (stepStateResp armedState cvdEvt).1.absorption_met
        = (applyEvent armedState cvdEvt 1).1.absorption_met := by
  have h := c4_partial_reset_after_emission.1 armedState cvdEvt 1 tsFix rfl
    (by decide)
  exact ⟨h.1, h.2.2.2.2.2.2.1, h.2.2.2.2.2.2.2.1⟩

/-- C9: every emitted trade signal's direction is the inverse of the sweep
direction recorded in the state the emission was evaluated on: a recorded
"bullish" yields "bearish", "bearish" yields "bullish", and any other
recorded value yields the sentinel "unknown"; moreover a sweep direction is
always recorded at emission time. -/
theorem c9_direction_inverse (s : PairState) (e : SignalRequest) (c : Rat)
    (ts : TradeSignal) (d : String)
    (hc : e.candle_close = some c)
    (hem : (stepStateResp s e).2 = Response.okSignal ts)
    (hd : (applyEvent s e c).1.sessions_sweep_direction = some d) :
    ((applyEvent s e c).1.sessions_sweep_direction.isSome = true)
    ∧ ts.direction =
        (if d = "bullish" then "bearish"
         else if d = "bearish" then "bullish" else "unknown") := by
  have hstep : stepStateResp s e = processSignal s e c := by
    unfold stepStateResp
    rw [hc]
  rw [hstep] at hem
  have hp := processSignal_emit s e c ts hem
  have hdir := hp.2.2.2.2
  rw [hd] at hdir
  exact ⟨by rw [hd]; rfl, by simpa [invertDirection] using hdir⟩

/-- C9 witness: the armed fixture's emission carries direction "bearish",
the inverse of the recorded "bullish" sweep. -/
theorem c9_witness :
    ((applyEvent armedState cvdEvt 1).1.sessions_sweep_direction.isSome = true)
    ∧ tsFix.direction =
        (if "bullish" = "bullish" then "bearish"
         else if "bullish" = "bearish" then "bullish" else "unknown") :=
  c9_direction_inverse armedState cvdEvt 1 tsFix "bullish" rfl (by decide) rfl

/-- C2 (code bug at the window check's argument): on the scenario-B trace —
sweep recorded at 10:00, stored fair-value-gap recorded at 08:00 (two hours
before the sweep), all four slots met, directions differing — the handler
emits anyway, because `check_fvg_time_window` is invoked on the incoming
event's `candle_time` (10:07 here) rather than on the stored
fair-value-gap's recorded timestamp; the same state's window check evaluated
at the stored fvg time 08:00 rejects, which per the spec should have
suppressed the emission and which the function's own name and parameter
(`fvg_time`) indicate was the intended argument. -/
theorem c2_window_checks_event_time_not_fvg_time :
    ((runResponses (PairState.new "EURUSD" "1h") staleFvgEvents).map
        Response.isEmission
      = [false, false, false, true])
    ∧ ((runState (PairState.new "EURUSD" "1h") staleFvgEvents).fvg_details
        = some { time := "2023-07-10T08:00:00Z", price := 1,
                 gap_high := 105, gap_low := 100 })
    ∧ ((runState (PairState.new "EURUSD" "1h")
          staleFvgEvents).check_fvg_time_window "2023-07-10T08:00:00Z"
        = false) := by
  refine ⟨by decide, by decide, by decide⟩

/-- C6 counterexample: an unrecognized-kind request with `candle_close`
present is answered 400, yet it mutates the pre-existing correlator for its
key: `last_candle_time` moves from the prior event's candle time (10:05) to
the rejected event's candle time (11:00), contradicting "causes no state
mutation". -/
theorem c6_counterexample :
    ((handleSignal preStore unknownEvt).2
        = Response.badRequest "Unknown signal type")
    ∧ ((Store.find preStore "EURUSD_1h").map PairState.last_candle_time
        = some (some "2023-07-10T10:05:00Z"))
    ∧ ((Store.find (handleSignal preStore unknownEvt).1 "EURUSD_1h").map
          PairState.last_candle_time
        = some (some "2023-07-10T11:00:00Z")) := by
  refine ⟨by decide, by decide, by decide⟩

/-- C6 (amended): a request without `candle_close` is rejected 400 before the
store is touched, with no mutation at all; a request of unrecognized kind
with `candle_close` present is rejected 400, but only after the correlator
for its key has been created (if absent) and its `last_candle_time`
overwritten with the event's candle time — every other field is unchanged. -/
theorem c6_badrequest_paths (store : Store) (e : SignalRequest) (c : Rat) :
    (e.candle_close = none →
       handleSignal store e =
         (store, Response.badRequest "candle_close is required"))
    ∧ (e.candle_close = some c →
       e.signal_type ≠ "sessions_sweep" → e.signal_type ≠ "fvg" →
       e.signal_type ≠ "absorption" → e.signal_type ≠ "cvd" →
       handleSignal store e =
         (Store.insert store (e.pair ++ "_" ++ e.timeframe)
            { (Store.find store (e.pair ++ "_" ++ e.timeframe)).getD
                (PairState.new e.pair e.timeframe) with
              last_candle_time := some e.candle_time },
          Response.badRequest "Unknown signal type")) := by
  constructor
  · intro hc
    unfold handleSignal
    rw [hc]
  · intro hc h1 h2 h3 h4
    unfold handleSignal
    rw [hc]
    dsimp only
    unfold processSignal
    rw [applyEvent_of_unknown
      ((Store.find store (e.pair ++ "_" ++ e.timeframe)).getD
        (PairState.new e.pair e.timeframe)) e c h1 h2 h3 h4]

/-- C6 witness: the amended bad-request characterization applied at the
concrete store and unrecognized-kind request. -/
theorem c6_witness :
    handleSignal preStore unknownEvt =
      (Store.insert preStore ("EURUSD" ++ "_" ++ "1h")
         { (Store.find preStore ("EURUSD" ++ "_" ++ "1h")).getD
             (PairState.new "EURUSD" "1h") with
           last_candle_time := some "2023-07-10T11:00:00Z" },
       Response.badRequest "Unknown signal type") :=
  (c6_badrequest_paths preStore unknownEvt 1).2 rfl
    (by decide) (by decide) (by decide) (by decide)

/-- C10 counterexample: on the degenerate-events trace, the final request is
a recognized fvg event with `candle_close` present but no `fvg_direction`
and no gap bounds; the claim says it must be a silent no-op, yet — because
the correlator was already fully armed with only the time-window having
rejected the previous trigger — that degenerate request emits a composite
and the emission counter moves from 0 to 1. -/
theorem c10_counterexample :
    ((runResponses (PairState.new "EURUSD" "1h") degenerateEvents).map
        Response.isEmission
      = [false, false, false, false, true])
    ∧ ((runState (PairState.new "EURUSD" "1h")
          (degenerateEvents.take 4)).signals_sent_since_session = 0)
    ∧ ((runState (PairState.new "EURUSD" "1h")
          degenerateEvents).signals_sent_since_session = 1) := by
  refine ⟨by decide, by decide, by decide⟩

/-- C10 (amended): a recognized-kind request with `candle_close` present but
missing its kind-specific required fields is answered with a 200-class
outcome, and applying it changes nothing except `last_candle_time`; however
the emission evaluation still runs afterwards, so the final state equals the
candle-time-updated state only when no emission fires from that request. -/
theorem c10_degenerate_event (s : PairState) (e : SignalRequest) (c : Rat)
    (hc : e.candle_close = some c)
    (hdeg : (e.signal_type = "fvg" ∧
              (e.fvg_direction = none ∨ e.gap_high = none ∨ e.gap_low = none))
         ∨ (e.signal_type = "absorption" ∧ e.direction = none)
         ∨ (e.signal_type = "cvd" ∧ e.direction = none)) :
    ((stepStateResp s e).2.isOk = true)
    ∧ ((applyEvent s e c).1 = { s with last_candle_time := some e.candle_time })
    ∧ ((applyEvent s e c).2 = none)
    ∧ ((stepStateResp s e).2.isEmission = false →
        (stepStateResp s e).1 =
          { s with last_candle_time := some e.candle_time }) := by
  have happ : applyEvent s e c =
      ({ s with last_candle_time := some e.candle_time }, none) := by
    rcases hdeg with ⟨hty, hm⟩ | ⟨hty, hm⟩ | ⟨hty, hm⟩
    · rw [applyEvent_of_fvg s e c hty, applyFvg_degenerate _ e c hm]
    · rw [applyEvent_of_absorption s e c hty,
        applyAbsorption_degenerate _ e c hm]
    · rw [applyEvent_of_cvd s e c hty, applyCvd_degenerate _ e c hm]
  have hstep : stepStateResp s e = processSignal s e c := by
    unfold stepStateResp
    rw [hc]
  rw [hstep]
  unfold processSignal
  rw [happ]
  dsimp only
  refine ⟨emissionCheck_isOk _ e, rfl, rfl, ?_⟩
  intro hnoem
  have hcond : ¬(({ s with last_candle_time := some e.candle_time }
      : PairState).are_all_conditions_met = true ∧
      ({ s with last_candle_time := some e.candle_time }
      : PairState).check_fvg_time_window e.candle_time = true) := by
    intro hcond
    rw [(emissionCheck_isEmission
      { s with last_candle_time := some e.candle_time } e).2 hcond] at hnoem
    cases hnoem
  exact (emissionCheck_no_emit
    { s with last_candle_time := some e.candle_time } e hcond).1

/-- C10 witness: a degenerate fvg request (no direction, no gap bounds)
against a fresh correlator is a 200 no-op that only updates the candle
time. -/
theorem c10_witness :
    ((stepStateResp (PairState.new "EURUSD" "1h")
        (mkFvgEvt "2023-07-10T10:30:00Z" none none none)).2.isOk = true)
    ∧ ((stepStateResp (PairState.new "EURUSD" "1h")
          (mkFvgEvt "2023-07-10T10:30:00Z" none none none)).1 =
        { PairState.new "EURUSD" "1h" with
          last_candle_time := some "2023-07-10T10:30:00Z" }) := by
  have h := c10_degenerate_event (PairState.new "EURUSD" "1h")
    (mkFvgEvt "2023-07-10T10:30:00Z" none none none) 1 rfl
    (Or.inl ⟨rfl, Or.inl rfl⟩)
  exact ⟨h.1, h.2.2.2 (by decide)⟩

/-- The armed-with-stale-fvg state: the first three scenario-B events
applied to a fresh correlator. -/
def c1PreState : PairState :=
  runState (PairState.new "EURUSD" "1h") (staleFvgEvents.take 3)

/-- The scenario-B divergence trigger. -/
def c1TriggerEvt : SignalRequest :=
  mkEvt "cvd" "2023-07-10T10:07:00Z" (some "bearish")

/-- C1 counterexample: the claimed "if and only if" fails as stated — this
divergence request is emitted although the time-window check evaluated at
the stored fair-value-gap's recorded timestamp (08:00, two hours before the
10:00 sweep) rejects, so the claim's right-hand side is false while its
left-hand side is true. -/
theorem c1_counterexample :
    ((stepStateResp c1PreState c1TriggerEvt).2.isEmission = true)
    ∧ ((applyEvent c1PreState c1TriggerEvt 1).1.fvg_details
        = some { time := "2023-07-10T08:00:00Z", price := 1,
                 gap_high := 105, gap_low := 100 })
    ∧ ((applyEvent c1PreState c1TriggerEvt 1).1.check_fvg_time_window
          "2023-07-10T08:00:00Z" = false) := by
  refine ⟨by decide, by decide, by decide⟩

/-- C1 (amended): a request with `candle_close` present emits a composite
iff its kind is recognized, it is not a cvd request ignored for matching the
recorded sweep direction while absorption is met, and the state obtained by
applying it has all four slots met, sweep and divergence directions
differing, the counter under the cap of 3 (all folded into
`are_all_conditions_met`), and the time-window check — evaluated at the
incoming event's `candle_time`, not at the stored fair-value-gap's
timestamp — accepting. -/
theorem c1_emission_iff (s : PairState) (e : SignalRequest) (c : Rat)
    (hc : e.candle_close = some c) :
    (stepStateResp s e).2.isEmission = true ↔
      ((e.signal_type = "sessions_sweep" ∨ e.signal_type = "fvg" ∨
        e.signal_type = "absorption" ∨ e.signal_type = "cvd")
       ∧ ¬(e.signal_type = "cvd" ∧ s.absorption_met = true ∧
            e.direction.isSome = true ∧
            s.sessions_sweep_direction = e.direction)
       ∧ (applyEvent s e c).1.are_all_conditions_met = true
       ∧ (applyEvent s e c).1.check_fvg_time_window e.candle_time = true) := by
  have hstep : stepStateResp s e = processSignal s e c := by
    unfold stepStateResp
    rw [hc]
  rw [hstep]
  unfold processSignal
  by_cases h1 : e.signal_type = "sessions_sweep"
  · rw [applyEvent_of_sweep s e c h1]
    dsimp only
    have hfalse := are_all_false_of_cvd _
      (applySweep_cvd_met { s with last_candle_time := some e.candle_time } e c)
    rw [emissionCheck_isEmission]
    simp [h1, hfalse]
  · by_cases h2 : e.signal_type = "fvg"
    · rw [applyEvent_of_fvg s e c h2]
      dsimp only
      rw [emissionCheck_isEmission]
      simp [h2]
    · by_cases h3 : e.signal_type = "absorption"
      · rw [applyEvent_of_absorption s e c h3]
        dsimp only
        rw [emissionCheck_isEmission]
        simp [h3]
      · by_cases h4 : e.signal_type = "cvd"
        · rw [applyEvent_of_cvd s e c h4]
          dsimp only [applyCvd]
          by_cases habs : s.absorption_met = true
          · rw [if_pos habs]
            cases hd : e.direction with
            | none =>
              dsimp only
              rw [emissionCheck_isEmission]
              simp [h4, habs, hd]
            | some d =>
              dsimp only
              by_cases hsw : s.sessions_sweep_direction = some d
              · rw [if_pos hsw]
                dsimp only
                simp [Response.isEmission, h4, habs, hd, hsw]
              · rw [if_neg hsw]
                dsimp only
                rw [emissionCheck_isEmission]
                simp [h4, habs, hd, hsw]
          · have habs' : s.absorption_met = false := by simpa using habs
            rw [if_neg habs]
            dsimp only
            rw [emissionCheck_isEmission]
            have hfalse := are_all_false_of_absorption
              { s with last_candle_time := some e.candle_time } habs'
            simp [h4, habs', hfalse]
        · rw [applyEvent_of_unknown s e c h1 h2 h3 h4]
          dsimp only
          simp [Response.isEmission, h1, h2, h3, h4]

/-- C1 witness: the amended equivalence applied at the armed fixture and its
counter-sweep divergence request, whose right-hand side holds concretely and
therefore forces the emission. -/
theorem c1_witness :
    (stepStateResp armedState cvdEvt).2.isEmission = true :=
  (c1_emission_iff armedState cvdEvt 1 rfl).2
    ⟨by decide, by decide, by decide, by decide⟩
